import Mathlib

/-!
Verification of the repository provisioning pipeline of
NextNodeSolutions/project-generator (src/github/mod.rs, src/github/repo.rs).

The GitHub HTTP API, the local git operations (git2), the filesystem checks
and the process-wide variable store are external effects; they are modelled
by a `World` oracle that fixes the outcome of each external call.  Every
pipeline function is embedded as a Lean function from a `World` (plus its
Rust arguments) to its `Except` result paired with the ordered list of
external events (HTTP requests, the local init-and-push, sleeps) the source
performs on that world.
-/

namespace ProjectGenerator

/-- Rust `str::split(sep)` for a single-character separator, on the
character list of the string: splits at every occurrence of `sep`, keeps
empty segments, and yields `[[]]` (one empty segment) for the empty
string — exactly the semantics of Rust's `split`, whose iterator is never
empty. -/
def rustSplit (sep : Char) : List Char → List (List Char)
  | [] => [[]]
  | c :: cs =>
    match rustSplit sep cs with
    | [] => [[]]
    | s :: rest => if c = sep then [] :: s :: rest else (c :: s) :: rest

/-- The segments of `url.split('/')`, as strings. -/
def splitSegments (url : String) : List String :=
  (rustSplit '/' url.data).map List.asString

/-- Modelled from the spec: the constant `REPO_URL` lives in `src/config.rs`,
which is not part of the provided sources; both `mod.rs` and `repo.rs` record
its value in comments as `https://github.com/NextNodeSolutions`. -/
def REPO_URL : String := "https://github.com/NextNodeSolutions"

/-- Body of `extract_organization_from_repo_url` (src/github/mod.rs lines
6-17), abstracted over the base URL it reads: `REPO_URL.split('/').last()`
with `ok_or_else` producing the configuration error. -/
def extract_organization_from_repo_url_of (repo_url : String) : Except String String :=
  match (splitSegments repo_url).getLast? with
  | some org_name => .ok org_name
  | none => .error "Could not extract organization from REPO_URL"

/-- `extract_organization_from_repo_url` as in the source: the body above
applied to the configured constant. -/
def extract_organization_from_repo_url : Except String String :=
  extract_organization_from_repo_url_of REPO_URL

/-- Shape of the JSON body of a status-success response to the
branch-reference read (`GET .../git/refs/heads/{branch}`). -/
inductive RefBody where
  | malformed
  | noSha
  | withSha (sha : String)
deriving DecidableEq

/-- Outcome of a branch-reference read.  On a non-success status the source
may also fail while reading the error body; both paths return `Err` with
only the message differing, so they are folded into `statusError`. -/
inductive ReadRefOutcome where
  | sendError (msg : String)
  | statusError (body : String)
  | success (body : RefBody)
deriving DecidableEq

/-- Shape of the JSON body of a status-success response to the create-repo
call. -/
inductive CreateRepoBody where
  | malformed
  | noHtmlUrl
  | withUrl (url : String)
deriving DecidableEq

/-- Outcome of `POST /orgs/{org}/repos`.  Body-read failures on the error
path are folded into `statusError` (both are `Err` in the source). -/
inductive CreateRepoOutcome where
  | sendError (msg : String)
  | statusError (body : String)
  | success (body : CreateRepoBody)
deriving DecidableEq

/-- Outcome of `PUT /repos/{org}/{repo}/topics`.  Here the error path must
be split: a non-success status whose body text is read successfully is only
warned about, but a transport failure of the send (line 103 of repo.rs) and
a failure to read the error body (line 109) both propagate with `?`. -/
inductive TopicsOutcome where
  | sendError (msg : String)
  | statusErrorBodyOk (body : String)
  | statusErrorBodyFail (msg : String)
  | ok
deriving DecidableEq

/-- Outcome of the create-reference and workflow-dispatch endpoints
(body-read failures on the error path folded into `statusError`). -/
inductive SimpleOutcome where
  | sendError (msg : String)
  | statusError (body : String)
  | ok
deriving DecidableEq

/-- The external world a provisioning run executes against: the outcome of
every external call the pipeline can make.  `headerOk` models whether
`HeaderValue::from_str` succeeds for the three request headers; `push`
collapses the six local git2 steps of `initialize_git_and_push` (remove
`.git`, init, add-all, commit, add remote, push), each of which propagates
with `?`, into a single outcome. -/
structure World where
  headerOk : Bool
  createRepo : CreateRepoOutcome
  topics : TopicsOutcome
  push : Except String Unit
  readRef : String → ReadRefOutcome
  createRef : SimpleOutcome
  dispatch : String → String → SimpleOutcome
  getVar : String → Option String
  devWorkflowExists : Bool
  prodWorkflowExists : Bool

instance {e a : Type} [DecidableEq e] [DecidableEq a] : DecidableEq (Except e a)
  | .error x, .error y => decidable_of_iff (x = y) (by simp)
  | .error _, .ok _ => isFalse (by simp)
  | .ok _, .error _ => isFalse (by simp)
  | .ok x, .ok y => decidable_of_iff (x = y) (by simp)

/-- An observable external action of the pipeline, in program order. -/
inductive Event where
  | createRepoReq (org name : String)
  | setTopicsReq (org name topic : String)
  | pushOp (refspec : String)
  | readRefReq (org name branch : String)
  | createRefReq (org name ref sha : String)
  | dispatchReq (org name workflow branch : String)
  | sleep (secs : Nat)
deriving DecidableEq

/-- `GitHubRepo::create_repository` (repo.rs lines 18-118): extract the
organization from `REPO_URL`, build headers, create the repository, parse
`html_url`, then — only when a topic was supplied — issue the topics call,
whose non-success status is merely warned about but whose send failure (or
error-body read failure) propagates. -/
def create_repository (w : World) (name description : String)
    (_private : Bool) (topic : Option String) :
    Except String String × List Event :=
  match (splitSegments REPO_URL).getLast? with
  | none => (.error "Could not extract organization from REPO_URL", [])
  | some org_name =>
    if w.headerOk then
      let evs := [Event.createRepoReq org_name name]
      match w.createRepo with
      | .sendError e => (.error ("Failed to send request to GitHub API: " ++ e), evs)
      | .statusError body => (.error ("GitHub API error: " ++ body), evs)
      | .success .malformed => (.error "Failed to parse response", evs)
      | .success .noHtmlUrl => (.error "No html_url in response", evs)
      | .success (.withUrl repo_url) =>
        match topic with
        | none => (.ok repo_url, evs)
        | some topic_name =>
          let evs2 := evs ++ [Event.setTopicsReq org_name name topic_name]
          match w.topics with
          | .sendError e => (.error ("Failed to add topic: " ++ e), evs2)
          | .statusErrorBodyFail e =>
            (.error ("Failed to read topics error response: " ++ e), evs2)
          | .statusErrorBodyOk _ => (.ok repo_url, evs2)
          | .ok => (.ok repo_url, evs2)
    else (.error "Failed to create authorization header", [])

/-- `GitHubRepo::initialize_git_and_push` (repo.rs lines 120-175): the six
local git2 steps, each fatal via `?`, ending in a push of
`HEAD:refs/heads/main`; collapsed into the world's `push` outcome. -/
def initialize_git_and_push (w : World) : Except String Unit × List Event :=
  (w.push, [Event.pushOp "HEAD:refs/heads/main"])

/-- `GitHubRepo::trigger_workflow_dispatch` (repo.rs lines 177-237). -/
def trigger_workflow_dispatch (w : World) (repo_name workflow_file branch : String) :
    Except String Unit × List Event :=
  match (splitSegments REPO_URL).getLast? with
  | none => (.error "Could not extract organization from REPO_URL", [])
  | some org_name =>
    if w.headerOk then
      let evs := [Event.dispatchReq org_name repo_name workflow_file branch]
      match w.dispatch workflow_file branch with
      | .sendError e =>
        (.error ("Failed to trigger workflow " ++ workflow_file ++ ": " ++ e), evs)
      | .statusError body =>
        (.error ("GitHub API error for workflow " ++ workflow_file ++ ": " ++ body), evs)
      | .ok => (.ok (), evs)
    else (.error "Failed to create authorization header", [])

/-- Rust's `str::to_lowercase`, modelled characterwise: `Char.toLower`
lowercases exactly the ASCII uppercase letters, which is where Rust's
`to_lowercase` and this model agree — and the four ASCII opt-out tokens it
is compared against can only arise from ASCII input. -/
def to_lowercase (v : String) : String :=
  (v.data.map Char.toLower).asString

/-- The `is_disabled` test of `trigger_deployments` (repo.rs lines
245-248): the lowercased value matches one of the four opt-out tokens. -/
def no_deploy_disables (v : String) : Bool :=
  match to_lowercase v with
  | "true" => true
  | "1" => true
  | "yes" => true
  | "on" => true
  | _ => false

/-- The body of `trigger_deployments` after the opt-out check (repo.rs
lines 258-286): sleep 10s, dispatch `deploy-dev.yml` on `develop` (result
matched, both arms only print), sleep 2s, dispatch `deploy-prod.yml` on
`main` (result matched, both arms only print), return `Ok`. -/
def trigger_deployments_run (w : World) (repo_name : String) :
    Except String Unit × List Event :=
  let d1 := trigger_workflow_dispatch w repo_name "deploy-dev.yml" "develop"
  let d2 := trigger_workflow_dispatch w repo_name "deploy-prod.yml" "main"
  (.ok (), Event.sleep 10 :: d1.2 ++ Event.sleep 2 :: d2.2)

/-- `GitHubRepo::trigger_deployments` (repo.rs lines 239-286): if the
process-wide variable `no_deploy` is set and its lowercased value is one of
the opt-out tokens, return `Ok` at once with no external action; otherwise
run the dispatch sequence. -/
def trigger_deployments (w : World) (repo_name : String) :
    Except String Unit × List Event :=
  match w.getVar "no_deploy" with
  | some no_deploy =>
    if no_deploy_disables no_deploy then (.ok (), [])
    else trigger_deployments_run w repo_name
  | none => trigger_deployments_run w repo_name

/-- `GitHubRepo::create_develop_branch` (repo.rs lines 288-392): read the
`main` reference (fatal on send error, non-success status, parse failure or
missing `object.sha`), then probe the `develop` reference — any
status-success response means the branch exists and creation is skipped
with `Ok`; a send error or non-success status falls through — and finally
create `refs/heads/develop` from main's sha. -/
def create_develop_branch (w : World) (repo_name : String) :
    Except String Unit × List Event :=
  match (splitSegments REPO_URL).getLast? with
  | none => (.error "Could not extract organization from REPO_URL", [])
  | some org_name =>
    if w.headerOk then
      let evs1 := [Event.readRefReq org_name repo_name "main"]
      match w.readRef "main" with
      | .sendError e => (.error ("Failed to get main branch SHA: " ++ e), evs1)
      | .statusError body =>
        (.error ("GitHub API error getting main branch: " ++ body), evs1)
      | .success .malformed => (.error "Failed to parse main branch response", evs1)
      | .success .noSha => (.error "No SHA found in main branch response", evs1)
      | .success (.withSha main_sha) =>
        let evs2 := evs1 ++ [Event.readRefReq org_name repo_name "develop"]
        match w.readRef "develop" with
        | .success _ => (.ok (), evs2)
        | _ =>
          let evs3 := evs2 ++
            [Event.createRefReq org_name repo_name "refs/heads/develop" main_sha]
          match w.createRef with
          | .sendError e => (.error ("Failed to create develop branch: " ++ e), evs3)
          | .statusError body =>
            (.error ("GitHub API error creating develop branch: " ++ body), evs3)
          | .ok => (.ok (), evs3)
    else (.error "Failed to create authorization header", [])

/-- `GitHubRepo::setup_repository_branches` (repo.rs lines 394-415): when
`create_develop` is set, sleep 5s and run `create_develop_branch`, matching
its result only to print a success or warning line; always return `Ok`. -/
def setup_repository_branches (w : World) (repo_name : String) (create_develop : Bool) :
    Except String Unit × List Event :=
  if create_develop then
    let r := create_develop_branch w repo_name
    (.ok (), Event.sleep 5 :: r.2)
  else
    (.ok (), [])

/-- `create_github_repository_with_code` (mod.rs lines 19-86): create the
repository (fatal via `?`), init-and-push (fatal via `?`), set up branches
(result matched, both arms only print), then — only when both workflow
files exist under the project path — trigger deployments (result matched,
both arms only print). -/
def create_github_repository_with_code (w : World) (repo_name description : String)
    (github_tag : Option String) (create_develop_branch : Bool) :
    Except String Unit × List Event :=
  let r1 := create_repository w repo_name description false github_tag
  match r1.1 with
  | .error e => (.error ("Failed to create GitHub repository: " ++ e), r1.2)
  | .ok _repo_url =>
    let r2 := initialize_git_and_push w
    let evs2 := r1.2 ++ r2.2
    match r2.1 with
    | .error e => (.error ("Failed to initialize and push to GitHub: " ++ e), evs2)
    | .ok _ =>
      let r3 := setup_repository_branches w repo_name create_develop_branch
      let evs3 := evs2 ++ r3.2
      if w.devWorkflowExists && w.prodWorkflowExists then
        let r4 := trigger_deployments w repo_name
        (.ok (), evs3 ++ r4.2)
      else
        (.ok (), evs3)

/-- Recognizes the local init-and-push action in a trace. -/
def isPushEvent : Event → Bool
  | .pushOp _ => true
  | _ => false

/-- Recognizes a branch-reference read request in a trace. -/
def isReadRefEvent : Event → Bool
  | .readRefReq _ _ _ => true
  | _ => false

/-- Recognizes a branch-reference create request in a trace. -/
def isCreateRefEvent : Event → Bool
  | .createRefReq _ _ _ _ => true
  | _ => false

/-- Recognizes a workflow-dispatch request in a trace. -/
def isDispatchEvent : Event → Bool
  | .dispatchReq _ _ _ _ => true
  | _ => false

/-- Recognizes any action of the branch-setup or deployment stages. -/
def isBranchOrDeployEvent (ev : Event) : Bool :=
  isReadRefEvent ev || isCreateRefEvent ev || isDispatchEvent ev

/-- A concrete world in which every external call succeeds, `main` resolves
to a fixed sha, `develop` does not exist yet, no variable is set and both
workflow files are present; used to instantiate theorems. -/
def wAllOk : World where
  headerOk := true
  createRepo := .success (.withUrl "https://github.com/NextNodeSolutions/demo")
  topics := .ok
  push := .ok ()
  readRef := fun b => if b = "main" then .success (.withSha "abc123") else .statusError "Not Found"
  createRef := .ok
  dispatch := fun _ _ => .ok
  getVar := fun _ => none
  devWorkflowExists := true
  prodWorkflowExists := true

/-- Like `wAllOk` but the `develop` reference already exists. -/
def wDevExists : World :=
  { wAllOk with readRef := fun _ => .success (.withSha "abc123") }

/-- Like `wAllOk` but the create-repository request fails at the transport
level. -/
def wCreateFails : World :=
  { wAllOk with createRepo := .sendError "connection refused" }

/-- Like `wAllOk` but the local init-and-push fails. -/
def wPushFails : World :=
  { wAllOk with push := .error "authentication required" }

/-- Like `wAllOk` but sending the topics request fails at the transport
level. -/
def wTopicSendFails : World :=
  { wAllOk with topics := .sendError "connection reset" }

/-- Like `wAllOk` but the topics request comes back with a non-success
status whose body is read successfully. -/
def wTopicStatusFails : World :=
  { wAllOk with topics := .statusErrorBodyOk "Validation Failed" }

/-- Like `wAllOk` but reading the `main` reference fails with a non-success
status. -/
def wMainReadFails : World :=
  { wAllOk with readRef := fun _ => .statusError "Not Found" }

/-- Like `wAllOk` but the `no_deploy` variable is set to an opt-out value
in mixed case. -/
def wNoDeploy : World :=
  { wAllOk with getVar := fun v => if v = "no_deploy" then some "TRUE" else none }

/-- Like `wAllOk` but the `no_deploy` variable is set to a value that does
not opt out. -/
def wNoDeployOff : World :=
  { wAllOk with getVar := fun v => if v = "no_deploy" then some "false" else none }

/-- Like `wAllOk` but only the dev workflow file exists. -/
def wOneWorkflow : World :=
  { wAllOk with prodWorkflowExists := false }

/-- Like `wAllOk` but both dispatch requests fail with a non-success
status. -/
def wDispatchFails : World :=
  { wAllOk with dispatch := fun _ _ => .statusError "Unprocessable Entity" }

/-- Rust single-char `split` never yields an empty segment list. -/
theorem rustSplit_ne_nil (sep : Char) (l : List Char) : rustSplit sep l ≠ [] := by
  cases l with
  | nil => simp [rustSplit]
  | cons c cs =>
    simp only [rustSplit]
    cases rustSplit sep cs with
    | nil => simp
    | cons s rest =>
      by_cases h : c = sep <;> simp [h]

/-- Splitting a URL on `/` always yields at least one segment. -/
theorem splitSegments_ne_nil (url : String) : splitSegments url ≠ [] := by
  simp [splitSegments, rustSplit_ne_nil]

/-- The organization extracted from the configured base URL. -/
theorem org_some : (splitSegments REPO_URL).getLast? = some "NextNodeSolutions" := by
  decide

/-- The opt-out test of `trigger_deployments`, characterized by the four
lowercased token equalities. -/
theorem no_deploy_disables_iff (v : String) :
    no_deploy_disables v = true ↔
      (to_lowercase v = "true" ∨ to_lowercase v = "1" ∨
       to_lowercase v = "yes" ∨ to_lowercase v = "on") := by
  unfold no_deploy_disables
  split <;> simp_all

/-- Every external action of `create_repository` is a create-repo or
set-topics request: never a push, branch read/create or dispatch. -/
theorem create_repository_events (w : World) (n d : String) (p : Bool) (t : Option String) :
    ((create_repository w n d p t).2.all
      (fun ev => !(isPushEvent ev || isBranchOrDeployEvent ev))) = true := by
  unfold create_repository
  repeat' split
  all_goals
    simp [isPushEvent, isBranchOrDeployEvent, isReadRefEvent, isCreateRefEvent, isDispatchEvent]

/-- Every external action of `setup_repository_branches` is a sleep, a
branch read or a branch create: never a workflow dispatch. -/
theorem setup_repository_branches_no_dispatch (w : World) (n : String) (f : Bool) :
    ((setup_repository_branches w n f).2.all (fun ev => !(isDispatchEvent ev))) = true := by
  unfold setup_repository_branches create_develop_branch
  repeat' split
  all_goals simp [isDispatchEvent]

/-- Once repository creation and push succeed, the pipeline result is `Ok`
with the concatenated trace, whatever the branch-setup and deployment
outcomes. -/
theorem pipeline_char_ok (w : World) (name desc : String) (tag : Option String) (flag : Bool)
    (u : String)
    (hcr : (create_repository w name desc false tag).1 = .ok u)
    (hp : w.push = .ok ()) :
    create_github_repository_with_code w name desc tag flag =
      (.ok (), ((create_repository w name desc false tag).2 ++
        [Event.pushOp "HEAD:refs/heads/main"] ++
        (setup_repository_branches w name flag).2) ++
        (if w.devWorkflowExists && w.prodWorkflowExists
          then (trigger_deployments w name).2 else [])) := by
  unfold create_github_repository_with_code initialize_git_and_push
  simp only [hcr, hp]
  by_cases hcond : (w.devWorkflowExists && w.prodWorkflowExists) = true <;>
    simp [hcond]

/-- When repository creation fails, the pipeline stops at once: its result
wraps the creation error and its trace is exactly the creation trace. -/
theorem pipeline_char_create_err (w : World) (name desc : String) (tag : Option String)
    (flag : Bool) (e : String)
    (hcr : (create_repository w name desc false tag).1 = .error e) :
    create_github_repository_with_code w name desc tag flag =
      (.error ("Failed to create GitHub repository: " ++ e),
       (create_repository w name desc false tag).2) := by
  unfold create_github_repository_with_code
  simp only [hcr]

/-- When the local init-and-push fails, the pipeline stops at once: its
result wraps the push error and its trace ends with the push operation. -/
theorem pipeline_char_push_err (w : World) (name desc : String) (tag : Option String)
    (flag : Bool) (u e : String)
    (hcr : (create_repository w name desc false tag).1 = .ok u)
    (hp : w.push = .error e) :
    create_github_repository_with_code w name desc tag flag =
      (.error ("Failed to initialize and push to GitHub: " ++ e),
       (create_repository w name desc false tag).2 ++ [Event.pushOp "HEAD:refs/heads/main"]) := by
  unfold create_github_repository_with_code initialize_git_and_push
  simp only [hcr, hp]

/-- `create_repository` returns the repository URL when the create call
succeeds and the topic call, if any, does not hit a propagating arm. -/
theorem create_repository_fst_ok (w : World) (n d : String) (p : Bool) (t : Option String)
    (u : String) (hh : w.headerOk = true) (hc : w.createRepo = .success (.withUrl u))
    (htop : t = none ∨ w.topics = .ok ∨ (∃ b, w.topics = .statusErrorBodyOk b)) :
    (create_repository w n d p t).1 = .ok u := by
  unfold create_repository
  rw [org_some]
  rcases htop with rfl | ht | ⟨b, ht⟩
  · simp [hh, hc]
  · cases t <;> simp [hh, hc, ht]
  · cases t <;> simp [hh, hc, ht]

/-- `create_repository` propagates a transport failure of the topics
request, and a failure to read the topics error body, via `?`. -/
theorem create_repository_fst_err_topic (w : World) (n d : String) (p : Bool)
    (tn u : String)
    (hh : w.headerOk = true) (hc : w.createRepo = .success (.withUrl u))
    (htop : (∃ m, w.topics = .sendError m) ∨ (∃ m, w.topics = .statusErrorBodyFail m)) :
    ∃ e, (create_repository w n d p (some tn)).1 = .error e := by
  unfold create_repository
  rw [org_some]
  rcases htop with ⟨m, ht⟩ | ⟨m, ht⟩
  · exact ⟨"Failed to add topic: " ++ m, by simp [hh, hc, ht]⟩
  · exact ⟨"Failed to read topics error response: " ++ m, by simp [hh, hc, ht]⟩

/-- C1: `extract_organization_from_repo_url` splits on `/` and returns the
last segment of the split — which may be empty, since Rust's `split` keeps
empty segments and always yields at least one segment.  In particular the
function never fails (the `ok_or_else` arm is dead code), and on the
configured constant it returns `NextNodeSolutions`. -/
theorem C1_last_segment :
    (∀ url : String,
      extract_organization_from_repo_url_of url = .ok ((splitSegments url).getLastD "")) ∧
    extract_organization_from_repo_url = .ok "NextNodeSolutions" := by
  constructor
  · intro url
    unfold extract_organization_from_repo_url_of
    cases hl : (splitSegments url).getLast? with
    | none => exact absurd (List.getLast?_eq_none_iff.mp hl) (splitSegments_ne_nil url)
    | some a =>
      rw [List.getLastD_eq_getLast?, hl]
      rfl
  · decide

/-- C1 counterexample: on the empty string the function returns
`Ok("")` rather than failing with a configuration error, because Rust's
`split` yields one empty segment there; and on a URL ending in `/` it
returns the empty final segment, not the last non-empty one. -/
theorem C1_counterexample :
    extract_organization_from_repo_url_of "" = .ok "" ∧
    extract_organization_from_repo_url_of "https://github.com/NextNodeSolutions/" = .ok "" := by
  constructor <;> decide

/-- C2: when the create-repo call and the push both succeed, a non-success
status of the topic-set request (with its error body read), and any failure
of branch setup or workflow dispatch, leave the pipeline result `Ok`; but a
transport failure sending the topics request, or a failure reading its
error body, propagates out of `create_repository` through `?` and makes the
whole pipeline fail. -/
theorem C2_topic_transport_failure_fatal (w : World) (name desc : String)
    (tag : Option String) (flag : Bool) (u : String)
    (hh : w.headerOk = true)
    (hc : w.createRepo = .success (.withUrl u))
    (hp : w.push = .ok ()) :
    ((tag = none ∨ w.topics = .ok ∨ (∃ b, w.topics = .statusErrorBodyOk b)) →
      (create_github_repository_with_code w name desc tag flag).1 = .ok ()) ∧
    (∀ t, tag = some t →
      ((∃ m, w.topics = .sendError m) ∨ (∃ m, w.topics = .statusErrorBodyFail m)) →
      (create_github_repository_with_code w name desc tag flag).1.isOk = false) := by
  constructor
  · intro htop
    have hcr := create_repository_fst_ok w name desc false tag u hh hc htop
    rw [pipeline_char_ok w name desc tag flag u hcr hp]
  · rintro t rfl htop
    obtain ⟨e, hcr⟩ := create_repository_fst_err_topic w name desc false t u hh hc htop
    rw [pipeline_char_create_err w name desc (some t) flag e hcr]
    rfl

/-- C2 counterexample: in a world where the create-repo call succeeds and
the push would succeed, a transport failure of the topics request makes the
pipeline return a fatal error instead of logging and succeeding. -/
theorem C2_counterexample :
    wTopicSendFails.createRepo =
      .success (.withUrl "https://github.com/NextNodeSolutions/demo") ∧
    wTopicSendFails.push = .ok () ∧
    (create_github_repository_with_code wTopicSendFails "demo" "a demo project"
        (some "astro") true).1 =
      .error "Failed to create GitHub repository: Failed to add topic: connection reset" := by
  refine ⟨rfl, rfl, ?_⟩
  decide

theorem C2_witness :
    (create_github_repository_with_code wTopicStatusFails "demo" "a demo project"
      (some "astro") true).1 = .ok () ∧
    (create_github_repository_with_code wTopicSendFails "demo" "a demo project"
      (some "astro") true).1.isOk = false := by
  constructor
  · exact (C2_topic_transport_failure_fatal wTopicStatusFails "demo" "a demo project"
      (some "astro") true "https://github.com/NextNodeSolutions/demo" rfl rfl rfl).1
      (Or.inr (Or.inr ⟨"Validation Failed", rfl⟩))
  · exact (C2_topic_transport_failure_fatal wTopicSendFails "demo" "a demo project"
      (some "astro") true "https://github.com/NextNodeSolutions/demo" rfl rfl rfl).2
      "astro" rfl (Or.inl ⟨"connection reset", rfl⟩)

/-- C3: a failure of repository creation, or of any step of the local
init-and-push, makes the pipeline return a fatal error at once, and its
trace contains no branch read, branch create or workflow dispatch (and, for
a creation failure, no push either): no later stage is attempted. -/
theorem C3_fatal_failures_abort (w : World) (name desc : String) (tag : Option String)
    (flag : Bool) :
    (∀ e, (create_repository w name desc false tag).1 = .error e →
      (create_github_repository_with_code w name desc tag flag).1.isOk = false ∧
      ((create_github_repository_with_code w name desc tag flag).2.all
        (fun ev => !(isPushEvent ev || isBranchOrDeployEvent ev))) = true) ∧
    (∀ u e, (create_repository w name desc false tag).1 = .ok u → w.push = .error e →
      (create_github_repository_with_code w name desc tag flag).1.isOk = false ∧
      ((create_github_repository_with_code w name desc tag flag).2.all
        (fun ev => !(isBranchOrDeployEvent ev))) = true) := by
  constructor
  · intro e hcr
    rw [pipeline_char_create_err w name desc tag flag e hcr]
    exact ⟨rfl, create_repository_events w name desc false tag⟩
  · intro u e hcr hp
    rw [pipeline_char_push_err w name desc tag flag u e hcr hp]
    refine ⟨rfl, ?_⟩
    simp only [List.all_append, Bool.and_eq_true]
    constructor
    · rw [List.all_eq_true]
      intro x hx
      have hx2 := List.all_eq_true.mp (create_repository_events w name desc false tag) x hx
      simp only [Bool.not_eq_true', Bool.or_eq_false_iff] at hx2
      simp [hx2.2]
    · simp [isBranchOrDeployEvent, isReadRefEvent, isCreateRefEvent, isDispatchEvent]

theorem C3_witness :
    (create_github_repository_with_code wCreateFails "demo" "a demo project" none true).1.isOk
        = false ∧
    (create_github_repository_with_code wPushFails "demo" "a demo project" none true).1.isOk
        = false := by
  constructor
  · exact ((C3_fatal_failures_abort wCreateFails "demo" "a demo project" none true).1
      "Failed to send request to GitHub API: connection refused" (by decide)).1
  · exact ((C3_fatal_failures_abort wPushFails "demo" "a demo project" none true).2
      "https://github.com/NextNodeSolutions/demo" "authentication required"
      (by decide) rfl).1

/-- Weakening between `List.all` predicates over traces. -/
theorem all_of_all_imp {l : List Event} {p q : Event → Bool}
    (h : (l.all p) = true) (himp : ∀ ev, p ev = true → q ev = true) :
    (l.all q) = true := by
  rw [List.all_eq_true] at h ⊢
  exact fun x hx => himp x (h x hx)

/-- An event that is neither a push nor a branch/deploy action is not a
dispatch. -/
theorem no_dispatch_of_no_stage (ev : Event)
    (h : (!(isPushEvent ev || isBranchOrDeployEvent ev)) = true) :
    (!(isDispatchEvent ev)) = true := by
  simp only [Bool.not_eq_true', Bool.or_eq_false_iff, isBranchOrDeployEvent] at h ⊢
  exact h.2.2

/-- A value that matches none of the four opt-out tokens does not disable
deployment. -/
theorem no_deploy_disables_eq_false (v : String)
    (h1 : to_lowercase v ≠ "true") (h2 : to_lowercase v ≠ "1")
    (h3 : to_lowercase v ≠ "yes") (h4 : to_lowercase v ≠ "on") :
    no_deploy_disables v = false := by
  cases hb : no_deploy_disables v
  · rfl
  · rcases (no_deploy_disables_iff v).mp hb with h | h | h | h
    · exact absurd h h1
    · exact absurd h h2
    · exact absurd h h3
    · exact absurd h h4

/-- When the opt-out variable is unset or set to a non-disabling value,
`trigger_deployments` runs its dispatch sequence. -/
theorem trigger_deployments_not_disabled (w : World) (name : String)
    (hvar : w.getVar "no_deploy" = none ∨
      (∃ v, w.getVar "no_deploy" = some v ∧ no_deploy_disables v = false)) :
    trigger_deployments w name = trigger_deployments_run w name := by
  unfold trigger_deployments
  rcases hvar with hnone | ⟨v, hv, hdis⟩
  · rw [hnone]
  · rw [hv]
    simp [hdis]

/-- C4: secondary-branch creation is idempotent.  First conjunct: whenever
`create_develop_branch` issues a create-reference request, a read of the
`develop` reference occurs strictly earlier in its trace.  Second conjunct:
whenever that read is reached and returns a success status, the function
returns `Ok` with a trace containing no create request, and the branch-setup
step around it does the same. -/
theorem C4_idempotent_develop_creation (w : World) (name : String) :
    (∀ o n r s, Event.createRefReq o n r s ∈ (create_develop_branch w name).2 →
      ∃ l1 l2, (create_develop_branch w name).2 =
        l1 ++ Event.readRefReq "NextNodeSolutions" name "develop" :: l2 ∧
        Event.createRefReq o n r s ∈ l2) ∧
    (∀ sha b, w.headerOk = true → w.readRef "main" = .success (.withSha sha) →
      w.readRef "develop" = .success b →
      create_develop_branch w name =
        (.ok (), [Event.readRefReq "NextNodeSolutions" name "main",
                  Event.readRefReq "NextNodeSolutions" name "develop"]) ∧
      setup_repository_branches w name true =
        (.ok (), [Event.sleep 5, Event.readRefReq "NextNodeSolutions" name "main",
                  Event.readRefReq "NextNodeSolutions" name "develop"])) := by
  constructor
  · intro o n r s hmem
    by_cases hh : w.headerOk = true
    · rcases hm : w.readRef "main" with e | bd | body
      · have ht : (create_develop_branch w name).2 =
            [Event.readRefReq "NextNodeSolutions" name "main"] := by
          unfold create_develop_branch
          rw [org_some]
          simp [hh, hm]
        rw [ht] at hmem
        simp at hmem
      · have ht : (create_develop_branch w name).2 =
            [Event.readRefReq "NextNodeSolutions" name "main"] := by
          unfold create_develop_branch
          rw [org_some]
          simp [hh, hm]
        rw [ht] at hmem
        simp at hmem
      · rcases body with _ | _ | sha
        · have ht : (create_develop_branch w name).2 =
              [Event.readRefReq "NextNodeSolutions" name "main"] := by
            unfold create_develop_branch
            rw [org_some]
            simp [hh, hm]
          rw [ht] at hmem
          simp at hmem
        · have ht : (create_develop_branch w name).2 =
              [Event.readRefReq "NextNodeSolutions" name "main"] := by
            unfold create_develop_branch
            rw [org_some]
            simp [hh, hm]
          rw [ht] at hmem
          simp at hmem
        · rcases hd : w.readRef "develop" with e2 | b2 | bd2
          · have ht : (create_develop_branch w name).2 =
                [Event.readRefReq "NextNodeSolutions" name "main",
                 Event.readRefReq "NextNodeSolutions" name "develop",
                 Event.createRefReq "NextNodeSolutions" name "refs/heads/develop" sha] := by
              unfold create_develop_branch
              rw [org_some]
              rcases hcr : w.createRef <;> simp [hh, hm, hd, hcr]
            rw [ht] at hmem ⊢
            simp only [List.mem_cons, List.not_mem_nil, or_false] at hmem
            rcases hmem with h | h | h
            · exact absurd h (by simp)
            · exact absurd h (by simp)
            · refine ⟨[Event.readRefReq "NextNodeSolutions" name "main"],
                [Event.createRefReq "NextNodeSolutions" name "refs/heads/develop" sha],
                rfl, ?_⟩
              rw [h]
              simp
          · have ht : (create_develop_branch w name).2 =
                [Event.readRefReq "NextNodeSolutions" name "main",
                 Event.readRefReq "NextNodeSolutions" name "develop",
                 Event.createRefReq "NextNodeSolutions" name "refs/heads/develop" sha] := by
              unfold create_develop_branch
              rw [org_some]
              rcases hcr : w.createRef <;> simp [hh, hm, hd, hcr]
            rw [ht] at hmem ⊢
            simp only [List.mem_cons, List.not_mem_nil, or_false] at hmem
            rcases hmem with h | h | h
            · exact absurd h (by simp)
            · exact absurd h (by simp)
            · refine ⟨[Event.readRefReq "NextNodeSolutions" name "main"],
                [Event.createRefReq "NextNodeSolutions" name "refs/heads/develop" sha],
                rfl, ?_⟩
              rw [h]
              simp
          · have ht : (create_develop_branch w name).2 =
                [Event.readRefReq "NextNodeSolutions" name "main",
                 Event.readRefReq "NextNodeSolutions" name "develop"] := by
              unfold create_develop_branch
              rw [org_some]
              simp [hh, hm, hd]
            rw [ht] at hmem
            simp at hmem
    · have ht : (create_develop_branch w name).2 = [] := by
        unfold create_develop_branch
        rw [org_some]
        simp [hh]
      rw [ht] at hmem
      simp at hmem
  · intro sha b hh hm hd
    have hc : create_develop_branch w name =
        (.ok (), [Event.readRefReq "NextNodeSolutions" name "main",
                  Event.readRefReq "NextNodeSolutions" name "develop"]) := by
      unfold create_develop_branch
      rw [org_some]
      simp [hh, hm, hd]
    refine ⟨hc, ?_⟩
    unfold setup_repository_branches
    simp [hc]

theorem C4_witness :
    create_develop_branch wDevExists "demo" =
      (.ok (), [Event.readRefReq "NextNodeSolutions" "demo" "main",
                Event.readRefReq "NextNodeSolutions" "demo" "develop"]) ∧
    setup_repository_branches wDevExists "demo" true =
      (.ok (), [Event.sleep 5, Event.readRefReq "NextNodeSolutions" "demo" "main",
                Event.readRefReq "NextNodeSolutions" "demo" "develop"]) :=
  (C4_idempotent_develop_creation wDevExists "demo").2 "abc123" (.withSha "abc123")
    rfl rfl rfl

/-- C5: when the process-wide variable `no_deploy` is set to a value whose
lowercasing is one of the four opt-out tokens, `trigger_deployments`
returns `Ok` immediately with an empty trace (no dispatch request, no
sleep); for any other value, and when the variable is unset, the dispatch
requests are issued (given well-formed headers). -/
theorem C5_no_deploy_opt_out (w : World) (name : String) :
    (∀ v, w.getVar "no_deploy" = some v →
      (to_lowercase v = "true" ∨ to_lowercase v = "1" ∨
       to_lowercase v = "yes" ∨ to_lowercase v = "on") →
      trigger_deployments w name = (.ok (), [])) ∧
    ((w.getVar "no_deploy" = none ∨
        (∃ v, w.getVar "no_deploy" = some v ∧
          to_lowercase v ≠ "true" ∧ to_lowercase v ≠ "1" ∧
          to_lowercase v ≠ "yes" ∧ to_lowercase v ≠ "on")) →
      w.headerOk = true →
      Event.dispatchReq "NextNodeSolutions" name "deploy-dev.yml" "develop"
          ∈ (trigger_deployments w name).2 ∧
      Event.dispatchReq "NextNodeSolutions" name "deploy-prod.yml" "main"
          ∈ (trigger_deployments w name).2) := by
  constructor
  · intro v hv hmatch
    have hdis : no_deploy_disables v = true := (no_deploy_disables_iff v).mpr hmatch
    unfold trigger_deployments
    rw [hv]
    simp [hdis]
  · intro hvar hh
    have hrun := trigger_deployments_not_disabled w name (by
      rcases hvar with hnone | ⟨v, hv, h1, h2, h3, h4⟩
      · exact Or.inl hnone
      · exact Or.inr ⟨v, hv, no_deploy_disables_eq_false v h1 h2 h3 h4⟩)
    rw [hrun]
    unfold trigger_deployments_run trigger_workflow_dispatch
    simp only [org_some]
    rcases hda : w.dispatch "deploy-dev.yml" "develop" <;>
      rcases hdb : w.dispatch "deploy-prod.yml" "main" <;>
        simp [hh, hda, hdb]

theorem C5_witness :
    trigger_deployments wNoDeploy "demo" = (.ok (), []) ∧
    Event.dispatchReq "NextNodeSolutions" "demo" "deploy-dev.yml" "develop"
      ∈ (trigger_deployments wNoDeployOff "demo").2 := by
  constructor
  · exact (C5_no_deploy_opt_out wNoDeploy "demo").1 "TRUE" rfl (Or.inl (by decide))
  · exact ((C5_no_deploy_opt_out wNoDeployOff "demo").2
      (Or.inr ⟨"false", rfl, by decide, by decide, by decide, by decide⟩) rfl).1

/-- C6: whenever the two workflow-definition files are not both present
under the project path, the pipeline's trace contains no workflow-dispatch
request at all — dispatch is attempted only when both files exist. -/
theorem C6_dispatch_requires_both_workflow_files (w : World) (name desc : String)
    (tag : Option String) (flag : Bool)
    (h : (w.devWorkflowExists && w.prodWorkflowExists) = false) :
    ((create_github_repository_with_code w name desc tag flag).2.all
      (fun ev => !(isDispatchEvent ev))) = true := by
  have hcreate : ((create_repository w name desc false tag).2.all
      (fun ev => !(isDispatchEvent ev))) = true :=
    all_of_all_imp (create_repository_events w name desc false tag) no_dispatch_of_no_stage
  rcases hcr : (create_repository w name desc false tag).1 with e | u
  · rw [pipeline_char_create_err w name desc tag flag e hcr]
    exact hcreate
  · cases hp : w.push with
    | error e2 =>
      rw [pipeline_char_push_err w name desc tag flag u e2 hcr hp]
      simp only [List.all_append, Bool.and_eq_true]
      exact ⟨hcreate, by simp [isDispatchEvent]⟩
    | ok a =>
      obtain ⟨⟩ := a
      rw [pipeline_char_ok w name desc tag flag u hcr hp]
      simp only [h, Bool.false_eq_true, if_false, List.append_nil, List.all_append,
        Bool.and_eq_true]
      exact ⟨⟨hcreate, by simp [isDispatchEvent]⟩,
        setup_repository_branches_no_dispatch w name flag⟩

theorem C6_witness :
    ((create_github_repository_with_code wOneWorkflow "demo" "a demo project" none true).2.all
      (fun ev => !(isDispatchEvent ev))) = true :=
  C6_dispatch_requires_both_workflow_files wOneWorkflow "demo" "a demo project" none true rfl

/-- C7: every create-reference request issued by `create_develop_branch`
carries exactly the commit hash read from `refs/heads/main` and targets
`refs/heads/develop`; and when the main read does not produce a commit
hash — send failure, non-success status, unparsable body or missing
`object.sha` — the function returns an error and its trace contains no
create request. -/
theorem C7_develop_from_main_sha (w : World) (name : String) :
    (∀ sha, w.readRef "main" = .success (.withSha sha) →
      ∀ o n r s, Event.createRefReq o n r s ∈ (create_develop_branch w name).2 →
        s = sha ∧ r = "refs/heads/develop") ∧
    ((∀ sha, w.readRef "main" ≠ .success (.withSha sha)) →
      (create_develop_branch w name).1.isOk = false ∧
      ((create_develop_branch w name).2.all (fun ev => !(isCreateRefEvent ev))) = true) := by
  constructor
  · intro sha hm o n r s hmem
    by_cases hh : w.headerOk = true
    · rcases hd : w.readRef "develop" with e2 | b2 | bd2
      · have ht : (create_develop_branch w name).2 =
            [Event.readRefReq "NextNodeSolutions" name "main",
             Event.readRefReq "NextNodeSolutions" name "develop",
             Event.createRefReq "NextNodeSolutions" name "refs/heads/develop" sha] := by
          unfold create_develop_branch
          rw [org_some]
          rcases hcr : w.createRef <;> simp [hh, hm, hd, hcr]
        rw [ht] at hmem
        simp only [List.mem_cons, List.not_mem_nil, or_false] at hmem
        rcases hmem with hq | hq | hq
        · exact absurd hq (by simp)
        · exact absurd hq (by simp)
        · obtain ⟨ho, hn, hr, hs⟩ := Event.createRefReq.inj hq
          exact ⟨hs, hr⟩
      · have ht : (create_develop_branch w name).2 =
            [Event.readRefReq "NextNodeSolutions" name "main",
             Event.readRefReq "NextNodeSolutions" name "develop",
             Event.createRefReq "NextNodeSolutions" name "refs/heads/develop" sha] := by
          unfold create_develop_branch
          rw [org_some]
          rcases hcr : w.createRef <;> simp [hh, hm, hd, hcr]
        rw [ht] at hmem
        simp only [List.mem_cons, List.not_mem_nil, or_false] at hmem
        rcases hmem with hq | hq | hq
        · exact absurd hq (by simp)
        · exact absurd hq (by simp)
        · obtain ⟨ho, hn, hr, hs⟩ := Event.createRefReq.inj hq
          exact ⟨hs, hr⟩
      · have ht : (create_develop_branch w name).2 =
            [Event.readRefReq "NextNodeSolutions" name "main",
             Event.readRefReq "NextNodeSolutions" name "develop"] := by
          unfold create_develop_branch
          rw [org_some]
          simp [hh, hm, hd]
        rw [ht] at hmem
        simp at hmem
    · have ht : (create_develop_branch w name).2 = [] := by
        unfold create_develop_branch
        rw [org_some]
        simp [hh]
      rw [ht] at hmem
      simp at hmem
  · intro hm
    by_cases hh : w.headerOk = true
    · rcases hmain : w.readRef "main" with e | bd | body
      · have hc : create_develop_branch w name =
            (.error ("Failed to get main branch SHA: " ++ e),
             [Event.readRefReq "NextNodeSolutions" name "main"]) := by
          unfold create_develop_branch
          rw [org_some]
          simp [hh, hmain]
        rw [hc]
        exact ⟨rfl, by simp [isCreateRefEvent]⟩
      · have hc : create_develop_branch w name =
            (.error ("GitHub API error getting main branch: " ++ bd),
             [Event.readRefReq "NextNodeSolutions" name "main"]) := by
          unfold create_develop_branch
          rw [org_some]
          simp [hh, hmain]
        rw [hc]
        exact ⟨rfl, by simp [isCreateRefEvent]⟩
      · rcases body with _ | _ | sha
        · have hc : create_develop_branch w name =
              (.error "Failed to parse main branch response",
               [Event.readRefReq "NextNodeSolutions" name "main"]) := by
            unfold create_develop_branch
            rw [org_some]
            simp [hh, hmain]
          rw [hc]
          exact ⟨rfl, by simp [isCreateRefEvent]⟩
        · have hc : create_develop_branch w name =
              (.error "No SHA found in main branch response",
               [Event.readRefReq "NextNodeSolutions" name "main"]) := by
            unfold create_develop_branch
            rw [org_some]
            simp [hh, hmain]
          rw [hc]
          exact ⟨rfl, by simp [isCreateRefEvent]⟩
        · exact absurd hmain (hm sha)
    · have hc : create_develop_branch w name =
          (.error "Failed to create authorization header", []) := by
        unfold create_develop_branch
        rw [org_some]
        simp [hh]
      rw [hc]
      exact ⟨rfl, by simp⟩

theorem C7_witness :
    (create_develop_branch wMainReadFails "demo").1.isOk = false ∧
    ((create_develop_branch wMainReadFails "demo").2.all
      (fun ev => !(isCreateRefEvent ev))) = true :=
  (C7_develop_from_main_sha wMainReadFails "demo").2
    (fun sha h => by simp [wMainReadFails, wAllOk] at h)

/-- C8: on every run that is not opted out (and with well-formed headers),
`trigger_deployments` produces exactly the trace: sleep, dev dispatch on
`develop`, sleep, prod dispatch on `main` — the dev dispatch strictly
precedes the prod dispatch, and the trace (hence both attempts) is the same
whatever the outcome of either dispatch, so a failure of one never prevents
or alters the other. -/
theorem C8_dev_dispatch_before_prod (w : World) (name : String)
    (hvar : w.getVar "no_deploy" = none ∨
      (∃ v, w.getVar "no_deploy" = some v ∧ no_deploy_disables v = false))
    (hh : w.headerOk = true) :
    trigger_deployments w name =
      (.ok (), [Event.sleep 10,
                Event.dispatchReq "NextNodeSolutions" name "deploy-dev.yml" "develop",
                Event.sleep 2,
                Event.dispatchReq "NextNodeSolutions" name "deploy-prod.yml" "main"]) := by
  rw [trigger_deployments_not_disabled w name hvar]
  unfold trigger_deployments_run trigger_workflow_dispatch
  simp only [org_some]
  rcases hda : w.dispatch "deploy-dev.yml" "develop" <;>
    rcases hdb : w.dispatch "deploy-prod.yml" "main" <;>
      simp [hh, hda, hdb]

theorem C8_witness :
    trigger_deployments wDispatchFails "demo" =
      (.ok (), [Event.sleep 10,
                Event.dispatchReq "NextNodeSolutions" "demo" "deploy-dev.yml" "develop",
                Event.sleep 2,
                Event.dispatchReq "NextNodeSolutions" "demo" "deploy-prod.yml" "main"]) :=
  C8_dev_dispatch_before_prod wDispatchFails "demo" (Or.inl rfl) rfl

/-- C9: `setup_repository_branches` returns `Ok(())` for every world, every
repository name and both values of the `create_develop` flag: any error of
the inner `create_develop_branch` call is caught by the `match` and only
logged, so the caller's warning arm for a branch-setup failure can never be
taken. -/
theorem C9_setup_repository_branches_total (w : World) (name : String) (flag : Bool) :
    (setup_repository_branches w name flag).1 = .ok () := by
  unfold setup_repository_branches
  split <;> rfl

/-- C10: `trigger_deployments` returns `Ok(())` on every run: after the
opt-out check both workflow-dispatch results are consumed by `match` arms
that only print, so the function never returns `Err` and the caller's
warning arm for a deployment-trigger failure can never be taken. -/
theorem C10_trigger_deployments_total (w : World) (name : String) :
    (trigger_deployments w name).1 = .ok () := by
  unfold trigger_deployments
  cases h : w.getVar "no_deploy" with
  | none => rfl
  | some v =>
    by_cases hd : no_deploy_disables v <;> simp [hd, trigger_deployments_run]

end ProjectGenerator
